import Mathlib

/-!
Shallow embedding of `src/proximal-testing/example_videos/opaque_overlay_demos.py`.

The script's own logic is the checkerboard pixel grid (`checkerboard_clip`)
and the glue that builds clips via the external moviepy library and writes
them to disk (`write_video`, the five demo functions, the `__main__` block).

Pure pixel arithmetic is embedded as executable Lean functions on `Nat`
(numpy's integer division `//` and `%` on non-negative indices coincide with
`Nat` division and modulus; `np.uint8` conversion is `% 256`).  Calls into
the external library and the filesystem are embedded symbolically: clip
constructions become a free term algebra `Clip`, and the side effects of a
run become a trace, a `List Effect`, in program order.
-/

namespace MoviepyDemos

/-- An RGB colour triple.  Channel values are natural numbers; the 8-bit
channels produced by `np.uint8` conversion are the values `< 256`. -/
structure RGB where
  r : Nat
  g : Nat
  b : Nat
deriving DecidableEq, Repr

/-- `np.uint8` conversion of a single channel value (wraps modulo 256). -/
def toByte (n : Nat) : Nat := n % 256

/-- `np.array(colors, dtype=np.uint8)` applied to one colour triple. -/
def rgbToByte (c : RGB) : RGB := ⟨toByte c.r, toByte c.g, toByte c.b⟩

/-- Indexing `palette[i]` for `i` in `{0, 1}`, where
`palette = np.array(colors, dtype=np.uint8)`. -/
def palette (colors : RGB × RGB) (i : Nat) : RGB :=
  if i = 0 then rgbToByte colors.1 else rgbToByte colors.2

/-- The default `colors` argument of `checkerboard_clip`:
`((20, 20, 20), (220, 220, 220))`. -/
def defaultColors : RGB × RGB := (⟨20, 20, 20⟩, ⟨220, 220, 220⟩)

/-- `tile = max(1, tile)` from `checkerboard_clip`: the tile length, a Python
`int` (possibly non-positive), clamped to a positive value. -/
def clampTile (tile : Int) : Nat := (max 1 tile).toNat

/-- The pixel array built inside `checkerboard_clip`:

    cols = np.arange(width) // tile
    rows = np.arange(height) // tile
    grid = (rows[:, None] + cols[None, :]) % 2
    palette = np.array(colors, dtype=np.uint8)
    frame = palette[grid]

Row `y` (for `y < height`) and column `x` (for `x < width`) hold
`palette[(y // tile + x // tile) % 2]` after the clamp on `tile`. -/
def checkerboardFrame (size : Nat × Nat) (tile : Int) (colors : RGB × RGB) :
    List (List RGB) :=
  (List.range size.2).map fun y =>
    (List.range size.1).map fun x =>
      palette colors ((y / clampTile tile + x / clampTile tile) % 2)

/-- Pixel lookup `frame[y][x]`, `none` when out of range. -/
def pixelAt (frame : List (List RGB)) (y x : Nat) : Option RGB :=
  (frame[y]?).bind fun row => row[x]?

/-- The `frame.length = height` and row-length `= width` part of the numpy
shape `(height, width, 3)`; the trailing `3` is structural in `RGB`. -/
def wellShaped (frame : List (List RGB)) (w h : Nat) : Prop :=
  frame.length = h ∧ ∀ row ∈ frame, row.length = w

/-- Every channel of every pixel is an 8-bit unsigned value. -/
def bytePixels (frame : List (List RGB)) : Prop :=
  ∀ row ∈ frame, ∀ p ∈ row, p.r < 256 ∧ p.g < 256 ∧ p.b < 256

/-- Every in-range pixel of `frame` is `palette[(y / t + x / t) % 2]`. -/
def alternatingGrid (frame : List (List RGB)) (w h t : Nat)
    (colors : RGB × RGB) : Prop :=
  ∀ y x, y < h → x < w →
    pixelAt frame y x = some (palette colors ((y / t + x / t) % 2))

/-- Horizontal or vertical position arguments accepted by `with_position`
in this script: `"center"`, `"right"`, or a pixel offset. -/
inductive Coord where
  | center
  | right
  | px (n : Int)

/-- Clip values built through the external moviepy API, embedded as a free
term algebra: one constructor per API call the script makes. -/
inductive Clip where
  | colorClip (size : Nat × Nat) (color : RGB) (duration : ℚ)
  | imageClip (frame : List (List RGB))
  | withDuration (c : Clip) (d : ℚ)
  | withFps (c : Clip) (fps : Nat)
  | withOpacity (c : Clip) (o : ℚ)
  | withPosition (c : Clip) (pos : Coord × Coord)
  | composite (layers : List Clip) (bgColor : Option RGB)

/-- Module constant `FPS = 24`. -/
def FPS : Nat := 24

/-- `checkerboard_clip(size, duration, tile, colors)`:
`ImageClip(frame).with_duration(duration).with_fps(FPS)` over the frame of
`checkerboardFrame`. -/
def checkerboard_clip (size : Nat × Nat) (duration : ℚ) (tile : Int := 40)
    (colors : RGB × RGB := defaultColors) : Clip :=
  Clip.withFps
    (Clip.withDuration (Clip.imageClip (checkerboardFrame size tile colors))
      duration)
    FPS

/-- The argument record of one `clip.write_videofile(...)` call. -/
structure EncodeCall where
  path : String
  fps : Nat
  codec : String
  preset : String
  bitrate : String
  audio : Bool

/-- One observable side effect of a run: a `Path.mkdir` call (with its
`parents` and `exist_ok` flags) or one external encode/write call. -/
inductive Effect where
  | mkdir (dir : String) (parents : Bool) (existOk : Bool)
  | encode (clip : Clip) (call : EncodeCall)

/-- `Path(dir) / filename` rendered with `as_posix()`, modelled as
concatenation with a `/` separator.  (pathlib additionally collapses `.`
path components; no claim depends on that normalisation, so the model keeps
the filename verbatim.) -/
def joinPath (dir filename : String) : String := dir ++ "/" ++ filename

/-- `Path.parent`: the path with its final `/`-separated component dropped. -/
def parentDir (p : String) : String :=
  String.intercalate "/" (p.splitOn "/").dropLast

/-- `write_video(clip, filename)`: resolve the target next to the script
(`scriptDir` is `Path(__file__).resolve().parent`), create the target's
parent directory with `parents=True, exist_ok=True`, then call
`write_videofile` with `fps=FPS`, `codec="libx264"`, `preset="ultrafast"`,
`bitrate="500k"`, `audio=False`.  The result is the effect trace in program
order. -/
def write_video (scriptDir : String) (clip : Clip) (filename : String) :
    List Effect :=
  let target := joinPath scriptDir filename
  [Effect.mkdir (parentDir target) true true,
   Effect.encode clip ⟨target, FPS, "libx264", "ultrafast", "500k", false⟩]

/-- `opaque_overlay_demo(suffix)`. -/
def opaque_overlay_demo (scriptDir : String) (suffix : String := "") :
    List Effect :=
  let duration : ℚ := 2
  let size : Nat × Nat := (320, 240)
  let background := Clip.withFps (Clip.colorClip size ⟨0, 0, 255⟩ duration) FPS
  let overlay := Clip.withOpacity (Clip.colorClip size ⟨0, 255, 0⟩ duration) 0.5
  let demo := Clip.composite [background, overlay] none
  write_video scriptDir demo ("./out/opaque_overlay_demo_hee" ++ suffix ++ ".mp4")

/-- `mask_ignored_demo(suffix)`. -/
def mask_ignored_demo (scriptDir : String) (suffix : String := "") :
    List Effect :=
  let duration : ℚ := 2
  let size : Nat × Nat := (320, 240)
  let background := Clip.withFps (Clip.colorClip size ⟨255, 0, 0⟩ duration) FPS
  let square :=
    Clip.withOpacity
      (Clip.withPosition (Clip.colorClip (120, 120) ⟨255, 255, 255⟩ duration)
        (Coord.center, Coord.center))
      0.2
  let demo := Clip.composite [background, square] none
  write_video scriptDir demo ("./out/mask_ignored_demo_hee" ++ suffix ++ ".mp4")

/-- `background_transparency_demo(suffix)`. -/
def background_transparency_demo (scriptDir : String) (suffix : String := "") :
    List Effect :=
  let duration : ℚ := 2
  let size : Nat × Nat := (320, 240)
  let checker := checkerboard_clip size duration
  let translucent_bg :=
    Clip.withFps (Clip.withOpacity (Clip.colorClip size ⟨0, 0, 255⟩ duration) 0.5)
      FPS
  let opaque_bar :=
    Clip.withFps
      (Clip.withPosition (Clip.colorClip (160, 240) ⟨0, 255, 0⟩ duration)
        (Coord.right, Coord.center))
      FPS
  let layered := Clip.composite [translucent_bg, opaque_bar] none
  let demo := Clip.composite [checker, layered] none
  write_video scriptDir demo
    ("./out/background_transparency_demo_hee" ++ suffix ++ ".mp4")

/-- `dual_mask_blend_demo(suffix)`. -/
def dual_mask_blend_demo (scriptDir : String) (suffix : String := "") :
    List Effect :=
  let duration : ℚ := 2
  let size : Nat × Nat := (320, 240)
  let base :=
    Clip.withFps (Clip.withOpacity (Clip.colorClip size ⟨0, 0, 255⟩ duration) 0.5)
      FPS
  let overlay :=
    Clip.withFps
      (Clip.withOpacity
        (Clip.withPosition (Clip.colorClip (200, 160) ⟨255, 255, 0⟩ duration)
          (Coord.center, Coord.center))
        0.5)
      FPS
  let demo := Clip.composite [base, overlay] none
  write_video scriptDir demo ("./out/dual_mask_blend_demo_hee" ++ suffix ++ ".mp4")

/-- `clipped_mask_demo(suffix)`. -/
def clipped_mask_demo (scriptDir : String) (suffix : String := "") :
    List Effect :=
  let duration : ℚ := 2
  let size : Nat × Nat := (320, 240)
  let background := Clip.withFps (Clip.colorClip size ⟨0, 0, 0⟩ duration) FPS
  let offscreen :=
    Clip.withFps
      (Clip.withOpacity
        (Clip.withPosition (Clip.colorClip (200, 200) ⟨255, 255, 255⟩ duration)
          (Coord.px (-80), Coord.center))
        0.5)
      FPS
  let demo := Clip.composite [background, offscreen] none
  write_video scriptDir demo ("./out/clipped_mask_demo_hee" ++ suffix ++ ".mp4")

/-- The `__main__` block after argument parsing: the five demo calls in
source order, each completing (its whole trace emitted) before the next
begins.  `suffix` is the parsed `--suffix` value. -/
def run_main (scriptDir : String) (suffix : String) : List Effect :=
  opaque_overlay_demo scriptDir suffix ++
  mask_ignored_demo scriptDir suffix ++
  background_transparency_demo scriptDir suffix ++
  dual_mask_blend_demo scriptDir suffix ++
  clipped_mask_demo scriptDir suffix

/-- The encode/write calls of a trace, in order. -/
def encodesOf (tr : List Effect) : List EncodeCall :=
  tr.filterMap fun e =>
    match e with
    | Effect.encode _ call => some call
    | _ => none

/-! ### Helper lemmas (shared) -/

theorem clampTile_pos_eq (t : Int) (ht : 0 < t) : clampTile t = t.toNat := by
  unfold clampTile
  omega

theorem clampTile_nonpos_eq (t : Int) (ht : t ≤ 0) : clampTile t = 1 := by
  unfold clampTile
  omega

theorem pixelAt_checkerboardFrame (w h : Nat) (t : Int) (colors : RGB × RGB)
    (y x : Nat) (hy : y < h) (hx : x < w) :
    pixelAt (checkerboardFrame (w, h) t colors) y x =
      some (palette colors ((y / clampTile t + x / clampTile t) % 2)) := by
  unfold pixelAt checkerboardFrame
  rw [List.getElem?_map, List.getElem?_range hy]
  simp [List.getElem?_range hx]

theorem mem_checkerboardFrame_flatten (w h : Nat) (t : Int)
    (colors : RGB × RGB) (p : RGB) :
    p ∈ (checkerboardFrame (w, h) t colors).flatten ↔
      ∃ y, y < h ∧ ∃ x, x < w ∧
        p = palette colors ((y / clampTile t + x / clampTile t) % 2) := by
  unfold checkerboardFrame
  constructor
  · intro hp
    rcases List.mem_flatten.mp hp with ⟨row, hrow, hprow⟩
    rcases List.mem_map.mp hrow with ⟨y, hy, rfl⟩
    rcases List.mem_map.mp hprow with ⟨x, hx, rfl⟩
    exact ⟨y, List.mem_range.mp hy, x, List.mem_range.mp hx, rfl⟩
  · rintro ⟨y, hy, x, hx, rfl⟩
    exact List.mem_flatten.mpr
      ⟨_, List.mem_map.mpr ⟨y, List.mem_range.mpr hy, rfl⟩,
        List.mem_map.mpr ⟨x, List.mem_range.mpr hx, rfl⟩⟩

theorem palette_eq_fst_or_snd (colors : RGB × RGB) (i : Nat) :
    palette colors (i % 2) = rgbToByte colors.1 ∨
      palette colors (i % 2) = rgbToByte colors.2 := by
  rcases Nat.mod_two_eq_zero_or_one i with h | h <;> simp [palette, h]

theorem checkerboardFrame_wellShaped (w h : Nat) (t : Int)
    (colors : RGB × RGB) :
    wellShaped (checkerboardFrame (w, h) t colors) w h := by
  constructor
  · simp [checkerboardFrame]
  · intro row hrow
    unfold checkerboardFrame at hrow
    rcases List.mem_map.mp hrow with ⟨y, _, rfl⟩
    simp

theorem checkerboardFrame_clamp_eq (size : Nat × Nat) (t : Int)
    (colors : RGB × RGB) (ht : t ≤ 0) :
    checkerboardFrame size t colors = checkerboardFrame size 1 colors := by
  unfold checkerboardFrame
  rw [clampTile_nonpos_eq t ht]
  rfl

/-! ### Claim theorems -/

/-- C1: for every width and height, every positive tile length `t`, and
every pixel coordinate `(x, y)` with `x < width` and `y < height`, the frame
built by `checkerboard_clip` assigns pixel `(x, y)` the colour
`colors[((y / t) + (x / t)) % 2]`. -/
theorem checkerboard_pixel_color_index (w h : Nat) (t : Int)
    (colors : RGB × RGB) (x y : Nat) (ht : 0 < t) (hx : x < w) (hy : y < h) :
    pixelAt (checkerboardFrame (w, h) t colors) y x =
      some (palette colors ((y / t.toNat + x / t.toNat) % 2)) := by
  rw [← clampTile_pos_eq t ht]
  exact pixelAt_checkerboardFrame w h t colors y x hy hx

theorem checkerboard_pixel_color_index_witness :
    (0 : Int) < 2 ∧ 5 < 7 ∧ 3 < 4 ∧
      pixelAt (checkerboardFrame (7, 4) 2 defaultColors) 3 5 =
        some (palette defaultColors
          ((3 / Int.toNat 2 + 5 / Int.toNat 2) % 2)) :=
  ⟨by decide, by decide, by decide,
    checkerboard_pixel_color_index 7 4 2 defaultColors 5 3 (by decide)
      (by decide) (by decide)⟩

/-- C2 (counterexample): the claim as stated fails.  For size `(1, 1)` and
tile length `1` (both positive), the frame is the single pixel
`palette[0]`, so it contains one distinct colour, not two. -/
theorem checkerboard_two_colors_cex :
    ¬ ((checkerboardFrame (1, 1) 1 defaultColors).flatten.toFinset.card = 2) := by
  decide

/-- C2 (amended): for every positive width, height, and tile length `t` with
`t < width` or `t < height` (so that both tile parities are realised on some
pixel), the frame built by `checkerboard_clip` with its default colours
contains exactly two distinct colours, arranged in the alternating grid
`palette[(y / t + x / t) % 2]`. -/
theorem checkerboard_two_colors (w h : Nat) (t : Int) (hw : 0 < w)
    (hh : 0 < h) (ht : 0 < t) (hbig : t.toNat < w ∨ t.toNat < h) :
    (checkerboardFrame (w, h) t defaultColors).flatten.toFinset =
        {rgbToByte defaultColors.1, rgbToByte defaultColors.2} ∧
      (checkerboardFrame (w, h) t defaultColors).flatten.toFinset.card = 2 ∧
      alternatingGrid (checkerboardFrame (w, h) t defaultColors) w h t.toNat
        defaultColors := by
  have hct := clampTile_pos_eq t ht
  have htn : 1 ≤ t.toNat := by omega
  have hset : (checkerboardFrame (w, h) t defaultColors).flatten.toFinset =
      {rgbToByte defaultColors.1, rgbToByte defaultColors.2} := by
    apply Finset.Subset.antisymm
    · intro p hp
      rw [List.mem_toFinset, mem_checkerboardFrame_flatten] at hp
      rcases hp with ⟨y, _, x, _, rfl⟩
      rcases palette_eq_fst_or_snd defaultColors
          (y / clampTile t + x / clampTile t) with hc | hc <;>
        simp [hc]
    · intro p hp
      rw [Finset.mem_insert, Finset.mem_singleton] at hp
      rw [List.mem_toFinset, mem_checkerboardFrame_flatten]
      rcases hp with rfl | rfl
      · exact ⟨0, hh, 0, hw, by simp [palette, Nat.zero_div]⟩
      · have hdiv : t.toNat / clampTile t = 1 := by
          rw [hct]
          exact Nat.div_self (by omega)
        rcases hbig with hb | hb
        · refine ⟨0, hh, t.toNat, hb, ?_⟩
          simp [Nat.zero_div, hdiv, palette]
        · refine ⟨t.toNat, hb, 0, hw, ?_⟩
          simp [Nat.zero_div, hdiv, palette]
  refine ⟨hset, ?_, ?_⟩
  · rw [hset]
    exact Finset.card_pair (by decide)
  · intro y x hy hx
    have := pixelAt_checkerboardFrame w h t defaultColors y x hy hx
    rwa [hct] at this

theorem checkerboard_two_colors_witness :
    0 < 3 ∧ 0 < 2 ∧ (0 : Int) < 1 ∧ (Int.toNat 1 < 3 ∨ Int.toNat 1 < 2) ∧
      ((checkerboardFrame (3, 2) 1 defaultColors).flatten.toFinset =
          {rgbToByte defaultColors.1, rgbToByte defaultColors.2} ∧
        (checkerboardFrame (3, 2) 1 defaultColors).flatten.toFinset.card = 2 ∧
        alternatingGrid (checkerboardFrame (3, 2) 1 defaultColors) 3 2
          (Int.toNat 1) defaultColors) :=
  ⟨by decide, by decide, by decide, by decide,
    checkerboard_two_colors 3 2 1 (by decide) (by decide) (by decide)
      (by decide)⟩

/-- C3: for every requested size `(width, height)` and every tile length
(positive or not), the frame built by `checkerboard_clip` has `height` rows
of `width` pixels each of three channels (the `3` is structural in `RGB`),
and every channel value is an 8-bit unsigned value (`< 256`, produced by the
`np.uint8` palette). -/
theorem checkerboard_shape_dtype (w h : Nat) (t : Int) (colors : RGB × RGB) :
    wellShaped (checkerboardFrame (w, h) t colors) w h ∧
      bytePixels (checkerboardFrame (w, h) t colors) := by
  refine ⟨checkerboardFrame_wellShaped w h t colors, ?_⟩
  intro row hrow p hp
  have hpmem : p ∈ (checkerboardFrame (w, h) t colors).flatten :=
    List.mem_flatten.mpr ⟨row, hrow, hp⟩
  rw [mem_checkerboardFrame_flatten] at hpmem
  rcases hpmem with ⟨y, _, x, _, rfl⟩
  rcases palette_eq_fst_or_snd colors (y / clampTile t + x / clampTile t)
      with hc | hc <;>
    rw [hc] <;>
    exact ⟨Nat.mod_lt _ (by omega), Nat.mod_lt _ (by omega),
      Nat.mod_lt _ (by omega)⟩

/-- C4: a non-positive tile length is not rejected: `max(1, tile)` clamps it
to `1`, and the resulting frame is still a well-formed checkerboard (the
same frame as for tile length `1`, with the requested shape). -/
theorem checkerboard_clamps_nonpos_tile (w h : Nat) (t : Int)
    (colors : RGB × RGB) (ht : t ≤ 0) :
    clampTile t = 1 ∧
      checkerboardFrame (w, h) t colors = checkerboardFrame (w, h) 1 colors ∧
      wellShaped (checkerboardFrame (w, h) t colors) w h := by
  exact ⟨clampTile_nonpos_eq t ht, checkerboardFrame_clamp_eq (w, h) t colors ht,
    checkerboardFrame_wellShaped w h t colors⟩

theorem checkerboard_clamps_nonpos_tile_witness :
    (-3 : Int) ≤ 0 ∧
      (clampTile (-3) = 1 ∧
        checkerboardFrame (2, 2) (-3) defaultColors =
          checkerboardFrame (2, 2) 1 defaultColors ∧
        wellShaped (checkerboardFrame (2, 2) (-3) defaultColors) 2 2) :=
  ⟨by decide,
    checkerboard_clamps_nonpos_tile 2 2 (-3) defaultColors (by decide)⟩

/-- C5: the pixel-grid computation of `checkerboard_clip` is deterministic
and pure: its embedding is a function of `(size, duration, tile, colors)`
alone (the source body reads no mutable state and performs no effects, so
its shallow embedding takes no state argument), and two evaluations at
equal arguments yield identical clips, pixel array included. -/
theorem checkerboard_clip_deterministic (s₁ s₂ : Nat × Nat) (d₁ d₂ : ℚ)
    (t₁ t₂ : Int) (c₁ c₂ : RGB × RGB) (hs : s₁ = s₂) (hd : d₁ = d₂)
    (ht : t₁ = t₂) (hc : c₁ = c₂) :
    checkerboard_clip s₁ d₁ t₁ c₁ = checkerboard_clip s₂ d₂ t₂ c₂ := by
  subst hs hd ht hc
  rfl

theorem checkerboard_clip_deterministic_witness :
    ((320, 240) : Nat × Nat) = (320, 240) ∧ (2 : ℚ) = 2 ∧ (40 : Int) = 40 ∧
      defaultColors = defaultColors ∧
      checkerboard_clip (320, 240) 2 40 defaultColors =
        checkerboard_clip (320, 240) 2 40 defaultColors :=
  ⟨rfl, rfl, rfl, rfl,
    checkerboard_clip_deterministic (320, 240) (320, 240) 2 2 40 40
      defaultColors defaultColors rfl rfl rfl rfl⟩

/-- C9: for every size, duration and colours, and every tile length
`t ≤ 0`, `checkerboard_clip` produces exactly the clip (pixel array
included) it produces for tile length `1`: the clamp `max(1, tile)` maps
every non-positive tile to `1`. -/
theorem checkerboard_clip_nonpos_tile_eq_one (size : Nat × Nat) (d : ℚ)
    (t : Int) (colors : RGB × RGB) (ht : t ≤ 0) :
    checkerboard_clip size d t colors = checkerboard_clip size d 1 colors := by
  unfold checkerboard_clip
  rw [checkerboardFrame_clamp_eq size t colors ht]

theorem checkerboard_clip_nonpos_tile_eq_one_witness :
    (-7 : Int) ≤ 0 ∧
      checkerboard_clip (3, 2) 2 (-7) defaultColors =
        checkerboard_clip (3, 2) 2 1 defaultColors :=
  ⟨by decide,
    checkerboard_clip_nonpos_tile_eq_one (3, 2) 2 (-7) defaultColors
      (by decide)⟩

/-- C6: for every clip and filename, `write_video` performs the external
encode/write call exactly once, with frame rate `24` (`FPS`), codec
`"libx264"`, preset `"ultrafast"`, bitrate `"500k"`, audio disabled, on the
target path resolved relative to the script's directory (each demo passes a
filename under the fixed relative directory `./out`). -/
theorem write_video_encode_once (scriptDir : String) (clip : Clip)
    (filename : String) :
    encodesOf (write_video scriptDir clip filename) =
      [⟨joinPath scriptDir filename, 24, "libx264", "ultrafast", "500k",
        false⟩] :=
  rfl

/-- C7: for every suffix `s`, each demo function performs exactly one
encode/write, whose path is the demo's hard-coded base name with `s`
inserted immediately before the `".mp4"` extension, under `./out` next to
the script. -/
theorem demo_filenames (scriptDir s : String) :
    (encodesOf (opaque_overlay_demo scriptDir s)).map EncodeCall.path =
        [joinPath scriptDir ("./out/opaque_overlay_demo_hee" ++ s ++ ".mp4")] ∧
      (encodesOf (mask_ignored_demo scriptDir s)).map EncodeCall.path =
        [joinPath scriptDir ("./out/mask_ignored_demo_hee" ++ s ++ ".mp4")] ∧
      (encodesOf (background_transparency_demo scriptDir s)).map
          EncodeCall.path =
        [joinPath scriptDir
          ("./out/background_transparency_demo_hee" ++ s ++ ".mp4")] ∧
      (encodesOf (dual_mask_blend_demo scriptDir s)).map EncodeCall.path =
        [joinPath scriptDir ("./out/dual_mask_blend_demo_hee" ++ s ++ ".mp4")] ∧
      (encodesOf (clipped_mask_demo scriptDir s)).map EncodeCall.path =
        [joinPath scriptDir ("./out/clipped_mask_demo_hee" ++ s ++ ".mp4")] :=
  ⟨rfl, rfl, rfl, rfl, rfl⟩

/-- C8: the `__main__` entry point runs the five demos sequentially in the
fixed source order; the trace of a run is the concatenation of the demo
traces in that order, so the encode/write calls appear in exactly that
order, each demo's trace complete before the next demo's begins. -/
theorem main_demo_order (scriptDir s : String) :
    (encodesOf (run_main scriptDir s)).map EncodeCall.path =
      [joinPath scriptDir ("./out/opaque_overlay_demo_hee" ++ s ++ ".mp4"),
       joinPath scriptDir ("./out/mask_ignored_demo_hee" ++ s ++ ".mp4"),
       joinPath scriptDir
         ("./out/background_transparency_demo_hee" ++ s ++ ".mp4"),
       joinPath scriptDir ("./out/dual_mask_blend_demo_hee" ++ s ++ ".mp4"),
       joinPath scriptDir ("./out/clipped_mask_demo_hee" ++ s ++ ".mp4")] :=
  rfl

/-- C10: for every filename, `write_video` issues a `mkdir` for the
target's parent directory with `parents=True` (intermediate directories
created, existing ones tolerated) at a trace position strictly before the
encode/write call. -/
theorem write_video_mkdir_before_encode (scriptDir : String) (clip : Clip)
    (filename : String) :
    ∃ i j : Nat, i < j ∧
      (write_video scriptDir clip filename)[i]? =
        some (Effect.mkdir (parentDir (joinPath scriptDir filename)) true
          true) ∧
      ∃ call, (write_video scriptDir clip filename)[j]? =
        some (Effect.encode clip call) :=
  ⟨0, 1, Nat.zero_lt_one, rfl,
    ⟨⟨joinPath scriptDir filename, FPS, "libx264", "ultrafast", "500k",
      false⟩, rfl⟩⟩

end MoviepyDemos
